import Mathlib

/-!
Verification of the facedetection pipeline (src/facedetection.py).

The Python source is shallowly embedded below.  Pure functions become Lean
functions; Python exceptions become `Except PyExc`; dict/JSON payloads become
structures mirroring the fields the code reads.  External collaborators
(the HTTP clients, the file system, the Google API client object, PIL) are
passed in as explicit parameters or modelled at their interface boundary,
as noted at each definition.
-/

/-- Python exception values that the embedded code can raise.  `valueError`
is the builtin `ValueError` (raised e.g. by `min()` on an empty sequence),
`attributeError` is the builtin `AttributeError` (raised by attribute lookup
on an object lacking that attribute), `typeError` is the builtin `TypeError`,
and `msProjectoxfordDetectionError` is `MSProjectoxfordDetectionError` from
facedetection.py line 269. -/
inductive PyExc where
  | valueError (msg : String)
  | attributeError (msg : String)
  | typeError (msg : String)
  | msProjectoxfordDetectionError (msg : String)
  /-- Modelled from the spec: the dedicated `EmptyPointsError` named in the
  spec (sections 4.5 and 7).  The source defines no such exception class;
  this constructor exists only so that statements can compare the error the
  code actually raises against the error the spec names. -/
  | emptyPointsError (msg : String)
deriving DecidableEq, Repr

/-- `Coord` from facedetection.py lines 50-60: an x/y pair whose equality is
component-wise (`__eq__` compares `x` and `y`). -/
structure Coord where
  x : Int
  y : Int
deriving DecidableEq, Repr

/-- The `IDetectionResult` interface (facedetection.py lines 73-76): the two
attributes every detection result exposes to the crop step, `coords` (list of
coordinates) and `uri` (image locator).  The provider-specific result classes
additionally keep the raw response in `data`; the crop step reads only these
two attributes. -/
structure IDetectionResult where
  uri : String
  coords : List Coord
deriving DecidableEq, Repr

/-- Splits a character list on a separator character; `split_char s cs` is the
char-list counterpart of Python `str.split(s)` used by the query-string
helpers below. -/
def split_char (sep : Char) (cs : List Char) : List (List Char) :=
  match cs with
  | [] => [[]]
  | c :: rest =>
    let r := split_char sep rest
    if c == sep then [] :: r
    else
      match r with
      | [] => [[c]]
      | g :: gs => (c :: g) :: gs

/-- Characters allowed in a URI scheme by `urllib.parse`: ASCII letters,
digits, and `+`, `-`, `.` (the `scheme_chars` constant of CPython). -/
def scheme_chars (c : Char) : Bool :=
  c.isAlpha || c.isDigit || c == '+' || c == '-' || c == '.'

/-- Scheme extraction of `urllib.parse.urlparse` (an external stdlib
collaborator of facedetection.py), modelled from CPython `urlsplit`: if the
string has a `:` at position `i > 0`, starts with an ASCII letter, and every
character before the `:` is a scheme character, the scheme is the lower-cased
text before the `:`; otherwise the scheme is empty. -/
def urlparse_scheme (uri : String) : String :=
  let cs := uri.toList
  match cs.findIdx? (fun c => c == ':') with
  | none => ""
  | some i =>
    let head_alpha :=
      match cs.head? with
      | some c => c.isAlpha
      | none => false
    if 0 < i && head_alpha && (cs.take i).all scheme_chars then
      String.mk ((cs.take i).map Char.toLower)
    else ""

/-- `is_localfile` from facedetection.py lines 27-29: the locator parses with
an empty URI scheme. -/
def is_localfile (uri : String) : Bool :=
  urlparse_scheme uri == ""

/-- `is_gcs_image_uri` from facedetection.py lines 32-35: the locator parses
with scheme exactly `gs`. -/
def is_gcs_image_uri (uri : String) : Bool :=
  urlparse_scheme uri == "gs"

/-- A `furl.furl` object (external library used by `AkamaiCrop.build_uri`):
the part of the URL before the query string, plus the ordered list of query
arguments. -/
structure Furl where
  base : String
  args : List (String × String)
deriving DecidableEq, Repr

/-- Parses a query string into key/value pairs: split on `&`, then each item
at its first `=`.  Modelled for query strings without percent-escapes, which
covers every URL this program builds or is given in the claims. -/
def parse_query (q : List Char) : List (String × String) :=
  (split_char '&' q).map fun kv =>
    (String.mk (kv.takeWhile (fun c => c != '=')),
     String.mk ((kv.dropWhile (fun c => c != '=')).drop 1))

/-- `furl.furl(uri)`: split the URI at its first `?` into base and query
arguments. -/
def Furl.of (uri : String) : Furl :=
  let cs := uri.toList
  if cs.any (fun c => c == '?') then
    { base := String.mk (cs.takeWhile (fun c => c != '?')),
      args := parse_query ((cs.dropWhile (fun c => c != '?')).drop 1) }
  else
    { base := uri, args := [] }

/-- Assignment `furl_obj.args[k] = v`: replace the value of an existing key in
place, or append the pair when the key is absent. -/
def Furl.setArg (f : Furl) (k v : String) : Furl :=
  if f.args.any (fun p => p.1 == k) then
    { f with args := f.args.map (fun p => if p.1 == k then (k, v) else p) }
  else
    { f with args := f.args ++ [(k, v)] }

/-- Reads `furl_obj.args[k]`: the value of the first pair with the given
key. -/
def Furl.getArg (f : Furl) (k : String) : Option String :=
  (f.args.find? (fun p => p.1 == k)).map (fun p => p.2)

/-- Percent-encoding that furl applies to query values when serializing:
`;` becomes `%3B` and a space becomes `+`; the remaining characters this
program ever places in a query value (letters, digits, `:`, `,`, `.`, `*`,
`-`, `/`, `_`) are emitted verbatim. -/
def encode_query_value (v : String) : String :=
  String.join (v.toList.map fun c =>
    if c == ';' then "%3B"
    else if c == ' ' then "+"
    else String.mk [c])

/-- `furl_obj.url`: serialize base and query arguments back into a URL
string. -/
def Furl.url (f : Furl) : String :=
  match f.args with
  | [] => f.base
  | _ =>
    f.base ++ "?" ++
      String.intercalate "&" (f.args.map fun p => p.1 ++ "=" ++ encode_query_value p.2)

/-- Python builtin `min` over a list of ints: raises `ValueError` on an empty
sequence, otherwise folds `min` over the elements. -/
def pyMin (l : List Int) : Except PyExc Int :=
  match l with
  | [] => Except.error (PyExc.valueError "min() arg is an empty sequence")
  | x :: xs => Except.ok (xs.foldl min x)

/-- Python builtin `max` over a list of ints: raises `ValueError` on an empty
sequence, otherwise folds `max` over the elements. -/
def pyMax (l : List Int) : Except PyExc Int :=
  match l with
  | [] => Except.error (PyExc.valueError "max() arg is an empty sequence")
  | x :: xs => Except.ok (xs.foldl max x)

/-- `AkamaiCrop.create_rect` (facedetection.py lines 115-136): collect the x
and y coordinates, and return `(Coord(min xs, min ys), Coord(max xs, max ys))`.
On an empty coordinate list the first `min()` call raises `ValueError`. -/
def AkamaiCrop.create_rect (coords : List Coord) : Except PyExc (Coord × Coord) := do
  let x_points := coords.map Coord.x
  let y_points := coords.map Coord.y
  let min_x ← pyMin x_points
  let min_y ← pyMin y_points
  let max_x ← pyMax x_points
  let max_y ← pyMax y_points
  Except.ok (Coord.mk min_x min_y, Coord.mk max_x max_y)

/-- The furl object `AkamaiCrop.build_uri` constructs for the foreground URL
(facedetection.py lines 150-153): parse `uri`, then set
`args[crop] = "{end.x - start.x}:{end.y - end.x};{start.x},{start.y}"`
and `args[resize] = "{width}:{height}"`. -/
def AkamaiCrop.foreground_furl (uri : String) (start e : Coord) (width height : String) : Furl :=
  ((Furl.of uri).setArg "crop"
      (toString (e.x - start.x) ++ ":" ++ toString (e.y - e.x) ++ ";" ++
       toString start.x ++ "," ++ toString start.y)).setArg "resize"
    (width ++ ":" ++ height)

/-- `AkamaiCrop.build_uri` (facedetection.py lines 138-163).  The source
serializes the foreground furl into `akamai_url` first; when `bg_url` is
given it then assigns `composite-to` on the already-serialized furl object
(line 157) — the string `akamai_url` is never recomputed afterwards — builds
the background furl with its own `resize`, and appends `"|" + bg_url`. -/
def AkamaiCrop.build_uri (uri : String) (start e : Coord)
    (width height composite_to : String) (bg_url : Option String)
    (bg_width bg_height : String) : String :=
  let furl_obj := AkamaiCrop.foreground_furl uri start e width height
  let akamai_url := furl_obj.url
  match bg_url with
  | none => akamai_url
  | some bg =>
    let _furl_obj := furl_obj.setArg "composite-to" composite_to
    let bg_furl_obj := (Furl.of bg).setArg "resize" (bg_width ++ ":" ++ bg_height)
    akamai_url ++ "|" ++ bg_furl_obj.url

/-- `AkamaiCrop.__call__` with explicit keyword arguments (facedetection.py
lines 95-113): compute the rectangle from the result coordinates and build the
URI from the result locator. -/
def AkamaiCrop.call_with (r : IDetectionResult)
    (width height composite_to : String) (bg_url : Option String)
    (bg_width bg_height : String) : Except PyExc String := do
  let se ← AkamaiCrop.create_rect r.coords
  Except.ok (AkamaiCrop.build_uri r.uri se.1 se.2 width height composite_to bg_url
    bg_width bg_height)

/-- `AkamaiCrop.__call__` with no keyword arguments, so every `build_uri`
parameter takes its default (`width = height = bg_width = bg_height = "*"`,
`composite_to = "*.*"`, no background URL). -/
def AkamaiCrop.call (r : IDetectionResult) : Except PyExc String :=
  AkamaiCrop.call_with r "*" "*" "*.*" none "*" "*"

/-- Modelled from the spec: the crop value the claim (and the spec section
4.5) states, `"{W}:{H};{minX},{minY}"` with `W = maxX - minX` and
`H = maxY - minX`.  This is the comparator for the refutation of C1, not a
translation of the source. -/
def spec_crop_claim (start e : Coord) : String :=
  toString (e.x - start.x) ++ ":" ++ toString (e.y - start.x) ++ ";" ++
    toString start.x ++ "," ++ toString start.y

/-- A vertex of a Google Vision bounding polygon: a JSON object whose `x` and
`y` keys may each be absent (the code reads them with `vertice.get('x', 0)`
and `vertice.get('y', 0)`). -/
structure GVertex where
  x : Option Int
  y : Option Int
deriving DecidableEq, Repr

/-- A Google Vision bounding polygon: `{vertices: [...]}`, read by direct
indexing. -/
structure GPoly where
  vertices : List GVertex
deriving DecidableEq, Repr

/-- One Google Vision face annotation: the code indexes
`annotation['fdBoundingPoly']` and `annotation['boundingPoly']` directly, so
both polygons are required fields. -/
structure GAnn where
  fdBoundingPoly : GPoly
  boundingPoly : GPoly
deriving DecidableEq, Repr

/-- One entry of the `responses` list; the code reads
`response.get('faceAnnotations', [])`, so the key may be absent. -/
structure GResponse where
  faceAnnotations : Option (List GAnn)
deriving DecidableEq, Repr

/-- The decoded Google Vision API response body; the code reads
`data.get('responses', [])`, so the key may be absent. -/
structure GData where
  responses : Option (List GResponse)
deriving DecidableEq, Repr

/-- `GoogleVisionAPIFaceDetectionResultFactory.get_coords` (facedetection.py
lines 250-256): for every response entry, for every face annotation, for each
of `fdBoundingPoly` then `boundingPoly`, yield a `Coord` per vertex, with a
missing `x` or `y` defaulting to 0. -/
def GoogleVisionAPIFaceDetectionResultFactory.get_coords (data : GData) : List Coord :=
  (data.responses.getD []).flatMap fun resp =>
    (resp.faceAnnotations.getD []).flatMap fun ann =>
      [ann.fdBoundingPoly, ann.boundingPoly].flatMap fun poly =>
        poly.vertices.map fun v => Coord.mk (v.x.getD 0) (v.y.getD 0)

/-- `GoogleVisionAPIFaceDetectionResult` (facedetection.py lines 259-266):
locator, extracted coordinates, and the raw response. -/
structure GoogleVisionAPIFaceDetectionResult where
  uri : String
  coords : List Coord
  data : GData
deriving DecidableEq, Repr

/-- `GoogleVisionAPIFaceDetectionResultFactory.__call__` (facedetection.py
lines 243-248). -/
def GoogleVisionAPIFaceDetectionResultFactory.call (uri : String) (data : GData) :
    GoogleVisionAPIFaceDetectionResult :=
  { uri := uri,
    coords := GoogleVisionAPIFaceDetectionResultFactory.get_coords data,
    data := data }

/-- The request object returned by `image_api.annotate(body=payload)` of the
external Google API client: its executor method is named `execute` and
performs the network call, returning the decoded response or raising. -/
structure VisionApiRequest where
  execute : Unit → Except PyExc GData

/-- Python attribute lookup on a `VisionApiRequest`: the object exposes
exactly one callable, named `execute`; looking up any other name yields
nothing (Python raises `AttributeError`). -/
def VisionApiRequest.lookup (r : VisionApiRequest) (name : String) :
    Option (Unit → Except PyExc GData) :=
  if name == "execute" then some r.execute else none

/-- The `images()` service of the external Google API client, parameterized by
the payload type: `annotate` builds a request object from a request body. -/
structure ImageApi (α : Type) where
  annotate : α → VisionApiRequest

/-- `GoogleVisionAPIFaceDetection.request` (facedetection.py lines 197-200):
build the request via `image_api.annotate(body=payload)` and then call
`request.exexute()` — the source spells the attribute `exexute`, which the
request object does not have, so the lookup fails with `AttributeError`. -/
def GoogleVisionAPIFaceDetection.request {α : Type} (image_api : ImageApi α)
    (payload : α) : Except PyExc GData :=
  let req := image_api.annotate payload
  match req.lookup "exexute" with
  | some f => f ()
  | none => Except.error (PyExc.attributeError "HttpRequest object has no attribute exexute")

/-- `GoogleVisionAPIFaceDetection.__call__` (facedetection.py lines 190-195):
classify the locator, build the payload (the payload builders read the local
file system, an external effect, so the builder is a parameter), perform the
request, and normalize the response through the result factory. -/
def GoogleVisionAPIFaceDetection.call {α : Type} (image_api : ImageApi α)
    (build_payload : String → Bool → α) (url_or_path : String) :
    Except PyExc GoogleVisionAPIFaceDetectionResult :=
  let is_local := is_localfile url_or_path
  let payload := build_payload url_or_path is_local
  match GoogleVisionAPIFaceDetection.request image_api payload with
  | Except.ok data =>
    Except.ok (GoogleVisionAPIFaceDetectionResultFactory.call url_or_path data)
  | Except.error e => Except.error e

/-- The `faceRectangle` object of one MS Projectoxford response entry. -/
structure FaceRect where
  left : Int
  top : Int
  width : Int
  height : Int
deriving DecidableEq, Repr

/-- One entry of the MS Projectoxford response list; the code indexes
`response['faceRectangle']` directly. -/
structure MSEntry where
  faceRectangle : FaceRect
deriving DecidableEq, Repr

/-- `MSProjectoxfordDetectionResultFactory.get_coords` (facedetection.py
lines 356-363): for each response entry, yield the four rectangle corners in
the order top-left, bottom-left, bottom-right, top-right. -/
def MSProjectoxfordDetectionResultFactory.get_coords : List MSEntry → List Coord
  | [] => []
  | resp :: rest =>
    let rect := resp.faceRectangle
    Coord.mk rect.left rect.top ::
    Coord.mk rect.left (rect.top + rect.height) ::
    Coord.mk (rect.left + rect.width) (rect.top + rect.height) ::
    Coord.mk (rect.left + rect.width) rect.top ::
    MSProjectoxfordDetectionResultFactory.get_coords rest

/-- The response object the external `requests.post` call returns to
`MSProjectoxfordDetection.request`: status code, reason phrase, raw body, and
the outcome of `res.json()` (the decoded body, or the decode failure message
that Python raises as a `json.JSONDecodeError`, a subclass of
`ValueError`). -/
structure MSHttpResponse where
  status_code : Int
  reason : String
  content : String
  jsonBody : Except String (List MSEntry)

/-- `MSProjectoxfordDetection.request` (facedetection.py lines 289-296): a
status code other than 200 raises `MSProjectoxfordDetectionError` with a
message carrying the status code, the reason phrase and the raw body;
otherwise the decoded JSON body is returned (a decode failure propagates as
the `ValueError` subclass `res.json()` raises). -/
def MSProjectoxfordDetection.request (res : MSHttpResponse) :
    Except PyExc (List MSEntry) :=
  if res.status_code != 200 then
    Except.error (PyExc.msProjectoxfordDetectionError
      ("detection failed: status=" ++ toString res.status_code ++
       ", reason=" ++ res.reason ++ ", content=" ++ res.content))
  else
    match res.jsonBody with
    | Except.ok d => Except.ok d
    | Except.error m => Except.error (PyExc.valueError m)

/-- Holds exactly when an outcome is the `MSProjectoxfordDetectionError`
raised by the detection request, as opposed to any other exception or a
success. -/
def isMSDetectionError {α : Type} (r : Except PyExc α) : Bool :=
  match r with
  | Except.error (PyExc.msProjectoxfordDetectionError _) => true
  | _ => false

/-- Holds exactly when an outcome is the spec-named `EmptyPointsError`, as
opposed to any other exception or a success. -/
def isEmptyPointsExc {α : Type} (r : Except PyExc α) : Bool :=
  match r with
  | Except.error (PyExc.emptyPointsError _) => true
  | _ => false

/-- `AllDetectionResult` (facedetection.py lines 426-433): locator, corner
coordinates, and the image size as raw data. -/
structure AllDetectionResult where
  uri : String
  coords : List Coord
  data : Int × Int
deriving DecidableEq, Repr

/-- `AllDetectionResultFactory.__call__` (facedetection.py lines 404-423):
from the `(width, height)` pair the external image reader produced, emit the
four image corners upper-left, lower-left, upper-right, lower-right. -/
def AllDetectionResultFactory.call (uri : String) (image_size : Int × Int) :
    AllDetectionResult :=
  { uri := uri,
    coords := [
      Coord.mk 0 0,
      Coord.mk 0 image_size.2,
      Coord.mk image_size.1 0,
      Coord.mk image_size.1 image_size.2],
    data := image_size }

/-- `main` (facedetection.py lines 445-464) after argument parsing, with the
registry passed in (its construction resolves credentials, an external
effect) and each registered detector modelled as a function from the target
locator to a detection result: `detect = reg.queryUtility(IDetection, mode)`
(calling the `None` a failed lookup returns raises `TypeError`), then
`result = detect(target)`, then — regardless of the parsed `crop_option`
argument — `crop = AkamaiCrop()` and `url = crop(result)`. -/
def main_url (registry : String → Option (String → Except PyExc IDetectionResult))
    (mode target crop_option : String) : Except PyExc String :=
  match registry mode with
  | none => Except.error (PyExc.typeError "NoneType object is not callable")
  | some detect => do
    let result ← detect target
    AkamaiCrop.call result

/-- Substring test over character lists: `contains_sub n h` holds when `n`
occurs contiguously in `h`.  Used only to state that a URL does not carry a
given query parameter. -/
def contains_sub (needle hay : List Char) : Bool :=
  match hay with
  | [] => needle.isEmpty
  | _ :: rest => needle.isPrefixOf hay || contains_sub needle rest

theorem find_replace_self (l : List (String × String)) (k v : String)
    (h : l.any (fun p => p.1 == k) = true) :
    (l.map (fun p => if p.1 == k then (k, v) else p)).find? (fun p => p.1 == k) =
      some (k, v) := by
  induction l with
  | nil => simp at h
  | cons p rest ih =>
    simp only [List.map_cons]
    by_cases hp : (p.1 == k) = true
    · rw [if_pos hp]
      exact List.find?_cons_of_pos (p := fun (q : String × String) => q.1 == k) _ (by simp)
    · rw [if_neg hp, List.find?_cons_of_neg (p := fun (q : String × String) => q.1 == k) _ hp]
      have hr : rest.any (fun p => p.1 == k) = true := by
        simp only [List.any_cons, Bool.or_eq_true] at h
        exact h.resolve_left hp
      exact ih hr

theorem find_append_self (l : List (String × String)) (k v : String)
    (h : l.any (fun p => p.1 == k) = false) :
    (l ++ [(k, v)]).find? (fun p => p.1 == k) = some (k, v) := by
  induction l with
  | nil => exact List.find?_cons_of_pos (p := fun (q : String × String) => q.1 == k) _ (by simp)
  | cons p rest ih =>
    simp only [List.any_cons, Bool.or_eq_false_iff] at h
    rw [List.cons_append,
      List.find?_cons_of_neg (p := fun (q : String × String) => q.1 == k) _ (by simp [h.1])]
    exact ih h.2

theorem Furl.getArg_setArg_self (f : Furl) (k v : String) :
    (f.setArg k v).getArg k = some v := by
  show Option.map (fun p => p.2) ((Furl.setArg f k v).args.find? (fun p => p.1 == k)) = _
  by_cases hany : f.args.any (fun p => p.1 == k) = true
  · have harg : (Furl.setArg f k v).args =
        f.args.map (fun p => if p.1 == k then (k, v) else p) := by
      unfold Furl.setArg
      rw [if_pos hany]
    rw [harg, find_replace_self f.args k v hany]
    rfl
  · have harg : (Furl.setArg f k v).args = f.args ++ [(k, v)] := by
      unfold Furl.setArg
      rw [if_neg hany]
    rw [harg, find_append_self f.args k v (eq_false_of_ne_true hany)]
    rfl

theorem find_replace_ne (l : List (String × String)) (k v k2 : String)
    (h : k2 ≠ k) :
    (l.map (fun p => if p.1 == k then (k, v) else p)).find? (fun p => p.1 == k2) =
      l.find? (fun p => p.1 == k2) := by
  have hkk2 : ¬ ((k : String) == k2) = true := by simpa using Ne.symm h
  induction l with
  | nil => rfl
  | cons p rest ih =>
    simp only [List.map_cons]
    by_cases hp : (p.1 == k) = true
    · have hk : p.1 = k := by simpa using hp
      have hp2 : ¬ (p.1 == k2) = true := by simpa [hk] using Ne.symm h
      rw [if_pos hp, List.find?_cons_of_neg (p := fun (q : String × String) => q.1 == k2) _ hkk2,
        List.find?_cons_of_neg (p := fun (q : String × String) => q.1 == k2) _ hp2]
      exact ih
    · rw [if_neg hp]
      by_cases hq : (p.1 == k2) = true
      · rw [List.find?_cons_of_pos (p := fun (q : String × String) => q.1 == k2) _ hq,
          List.find?_cons_of_pos (p := fun (q : String × String) => q.1 == k2) _ hq]
      · rw [List.find?_cons_of_neg (p := fun (q : String × String) => q.1 == k2) _ hq,
          List.find?_cons_of_neg (p := fun (q : String × String) => q.1 == k2) _ hq]
        exact ih

theorem find_append_ne (l : List (String × String)) (k v k2 : String)
    (h : k2 ≠ k) :
    (l ++ [(k, v)]).find? (fun p => p.1 == k2) = l.find? (fun p => p.1 == k2) := by
  have hkk2 : ¬ ((k : String) == k2) = true := by simpa using Ne.symm h
  induction l with
  | nil =>
    rw [List.nil_append, List.find?_cons_of_neg (p := fun (q : String × String) => q.1 == k2) _ hkk2]
  | cons p rest ih =>
    by_cases hq : (p.1 == k2) = true
    · rw [List.cons_append, List.find?_cons_of_pos (p := fun (q : String × String) => q.1 == k2) _ hq,
        List.find?_cons_of_pos (p := fun (q : String × String) => q.1 == k2) _ hq]
    · rw [List.cons_append, List.find?_cons_of_neg (p := fun (q : String × String) => q.1 == k2) _ hq,
        List.find?_cons_of_neg (p := fun (q : String × String) => q.1 == k2) _ hq]
      exact ih

theorem Furl.getArg_setArg_ne (f : Furl) (k v k2 : String) (h : k2 ≠ k) :
    (f.setArg k v).getArg k2 = f.getArg k2 := by
  show Option.map (fun p => p.2) ((Furl.setArg f k v).args.find? (fun p => p.1 == k2)) = _
  by_cases hany : f.args.any (fun p => p.1 == k) = true
  · have harg : (Furl.setArg f k v).args =
        f.args.map (fun p => if p.1 == k then (k, v) else p) := by
      unfold Furl.setArg
      rw [if_pos hany]
    rw [harg, find_replace_ne f.args k v k2 h]
    rfl
  · have harg : (Furl.setArg f k v).args = f.args ++ [(k, v)] := by
      unfold Furl.setArg
      rw [if_neg hany]
    rw [harg, find_append_ne f.args k v k2 h]
    rfl

/-- C1, counterexample: at points (0,0) and (2,3) with source
`http://example.com/a.jpg`, the bounding rectangle is start (0,0), end (2,3);
the code sets the crop query parameter to `2:1;0,0` (height
`maxY - maxX = 3 - 2`), while the claimed formula `{W}:{H};{minX},{minY}` with
`H = maxY - minX` gives `2:3;0,0`, so the claim fails. -/
theorem c1_crop_height_counterexample :
    AkamaiCrop.create_rect [Coord.mk 0 0, Coord.mk 2 3] =
      Except.ok (Coord.mk 0 0, Coord.mk 2 3) ∧
    (AkamaiCrop.foreground_furl "http://example.com/a.jpg" (Coord.mk 0 0) (Coord.mk 2 3)
        "*" "*").getArg "crop" = some "2:1;0,0" ∧
    spec_crop_claim (Coord.mk 0 0) (Coord.mk 2 3) = "2:3;0,0" ∧
    "2:1;0,0" ≠ "2:3;0,0" :=
  ⟨rfl, rfl, rfl, by decide⟩

/-- C1 (amended): for every non-empty sequence of points and every source URL,
the crop query parameter equals `"{W}:{H};{minX},{minY}"` where
`W = maxX - minX` and `H = maxY - maxX` (the code computes `end.y - end.x`),
with minX/minY/maxX/maxY the component-wise minima and maxima of the
points. -/
theorem c1_crop_param (uri width height : String) (coords : List Coord) (s e : Coord)
    (h : AkamaiCrop.create_rect coords = Except.ok (s, e)) :
    (coords.map Coord.x).min? = some s.x ∧
    (coords.map Coord.y).min? = some s.y ∧
    (coords.map Coord.x).max? = some e.x ∧
    (coords.map Coord.y).max? = some e.y ∧
    (AkamaiCrop.foreground_furl uri s e width height).getArg "crop" =
      some (toString (e.x - s.x) ++ ":" ++ toString (e.y - e.x) ++ ";" ++
        toString s.x ++ "," ++ toString s.y) := by
  cases coords with
  | nil => exact absurd h (by simp [AkamaiCrop.create_rect, pyMin, Bind.bind, Except.bind])
  | cons c cs =>
    have hrect : AkamaiCrop.create_rect (c :: cs) =
        Except.ok (Coord.mk ((cs.map Coord.x).foldl min c.x) ((cs.map Coord.y).foldl min c.y),
          Coord.mk ((cs.map Coord.x).foldl max c.x) ((cs.map Coord.y).foldl max c.y)) := rfl
    rw [hrect] at h
    simp only [Except.ok.injEq, Prod.mk.injEq] at h
    obtain ⟨h1, h2⟩ := h
    subst h1
    subst h2
    refine ⟨rfl, rfl, rfl, rfl, ?_⟩
    show ((((Furl.of uri).setArg "crop" _).setArg "resize" _)).getArg "crop" = _
    rw [Furl.getArg_setArg_ne _ _ _ _ (by decide), Furl.getArg_setArg_self]

/-- C1 witness: the amended theorem applied to the docstring example points
(20,30), (25,24), (29,21): rectangle start (20,21), end (29,30), crop value
`9:1;20,21`. -/
theorem c1_crop_param_witness :
    ([Coord.mk 20 30, Coord.mk 25 24, Coord.mk 29 21].map Coord.x).min? = some 20 ∧
    ([Coord.mk 20 30, Coord.mk 25 24, Coord.mk 29 21].map Coord.y).min? = some 21 ∧
    ([Coord.mk 20 30, Coord.mk 25 24, Coord.mk 29 21].map Coord.x).max? = some 29 ∧
    ([Coord.mk 20 30, Coord.mk 25 24, Coord.mk 29 21].map Coord.y).max? = some 30 ∧
    (AkamaiCrop.foreground_furl "https://example.com/example.jpg" (Coord.mk 20 21)
      (Coord.mk 29 30) "*" "*").getArg "crop" = some "9:1;20,21" :=
  c1_crop_param "https://example.com/example.jpg" "*" "*"
    [Coord.mk 20 30, Coord.mk 25 24, Coord.mk 29 21] (Coord.mk 20 21) (Coord.mk 29 30) rfl

/-- C2: at points (0,0),(1,1) with foreground `http://example.com/a.jpg` and
background `http://example.com/bg.jpg` and all defaults, the output is the
foreground URL with only `crop` and `resize`, a `|`, and the background URL
with `resize`; the foreground part never carries `composite-to`, because
`build_uri` captures `furl_obj.url` into `akamai_url` before line 157 assigns
`composite-to` on the furl object.  This evaluates the code at the failing
input of the claim. -/
theorem c2_composite_to_missing :
    AkamaiCrop.call_with
        (IDetectionResult.mk "http://example.com/a.jpg" [Coord.mk 0 0, Coord.mk 1 1])
        "*" "*" "*.*" (some "http://example.com/bg.jpg") "*" "*" =
      Except.ok
        "http://example.com/a.jpg?crop=1:0%3B0,0&resize=*:*|http://example.com/bg.jpg?resize=*:*" ∧
    contains_sub "composite-to".toList
      "http://example.com/a.jpg?crop=1:0%3B0,0&resize=*:*|http://example.com/bg.jpg?resize=*:*".toList
      = false :=
  ⟨rfl, by decide⟩

/-- C3, counterexample: on the empty point list, `create_rect` raises the
builtin `ValueError` coming from `min()` on an empty sequence — not the
dedicated `EmptyPointsError` the claim names (the source defines no such
class). -/
theorem c3_empty_error_counterexample :
    AkamaiCrop.create_rect [] =
      Except.error (PyExc.valueError "min() arg is an empty sequence") ∧
    isEmptyPointsExc (AkamaiCrop.create_rect []) = false :=
  ⟨rfl, rfl⟩

/-- C3 (amended): `create_rect` fails if and only if the point sequence is
empty, raising Python generic `ValueError` from `min()` on an empty sequence
(there is no dedicated `EmptyPointsError`); callers receive no rectangle in
that case, and every non-empty sequence yields a rectangle. -/
theorem c3_empty_points_iff (coords : List Coord) :
    (coords = [] ∧ AkamaiCrop.create_rect coords =
      Except.error (PyExc.valueError "min() arg is an empty sequence")) ∨
    (coords ≠ [] ∧ ∃ rect, AkamaiCrop.create_rect coords = Except.ok rect) := by
  cases coords with
  | nil => exact Or.inl ⟨rfl, rfl⟩
  | cons c cs => exact Or.inr ⟨by simp, ⟨_, rfl⟩⟩

/-- C4: for every locator and every backend (even one whose `execute` would
return a successful response), `GoogleVisionAPIFaceDetection.__call__` raises
`AttributeError`, because line 200 invokes `request.exexute()` — a typo for
`execute` — so detect never reaches normalization and never returns a
result. -/
theorem c4_detect_raises_attribute_error {α : Type} (image_api : ImageApi α)
    (build_payload : String → Bool → α) (url_or_path : String) :
    GoogleVisionAPIFaceDetection.call image_api build_payload url_or_path =
      Except.error (PyExc.attributeError "HttpRequest object has no attribute exexute") := rfl

/-- C5: for every response (ordered sequence of `faceRectangle` entries), the
normalization emits, per rectangle, exactly the four points (left,top),
(left,top+height), (left+width,top+height), (left+width,top) in that order;
in particular left 5, top 6, width 10, height 20 yields exactly
[(5,6),(5,26),(15,26),(15,6)]. -/
theorem c5_ms_rect_corners (data : List MSEntry) :
    MSProjectoxfordDetectionResultFactory.get_coords data =
      data.flatMap (fun resp =>
        [Coord.mk resp.faceRectangle.left resp.faceRectangle.top,
         Coord.mk resp.faceRectangle.left
           (resp.faceRectangle.top + resp.faceRectangle.height),
         Coord.mk (resp.faceRectangle.left + resp.faceRectangle.width)
           (resp.faceRectangle.top + resp.faceRectangle.height),
         Coord.mk (resp.faceRectangle.left + resp.faceRectangle.width)
           resp.faceRectangle.top]) ∧
    MSProjectoxfordDetectionResultFactory.get_coords [MSEntry.mk (FaceRect.mk 5 6 10 20)] =
      [Coord.mk 5 6, Coord.mk 5 26, Coord.mk 15 26, Coord.mk 15 6] := by
  constructor
  · induction data with
    | nil => rfl
    | cons resp rest ih =>
      rw [List.flatMap_cons, MSProjectoxfordDetectionResultFactory.get_coords, ih]
      rfl
  · rfl

/-- C6: for every vision-API response, every vertex of both `fdBoundingPoly`
and `boundingPoly` of every face annotation of every response entry becomes a
point (missing x or y defaulting to 0), flattened into one ordered sequence;
in particular one annotation with fd vertex (1,2) and bounding vertex (3,4)
yields [(1,2),(3,4)]. -/
theorem c6_gcp_both_polygons (data : GData) :
    GoogleVisionAPIFaceDetectionResultFactory.get_coords data =
      (data.responses.getD []).flatMap (fun resp =>
        (resp.faceAnnotations.getD []).flatMap (fun ann =>
          (ann.fdBoundingPoly.vertices ++ ann.boundingPoly.vertices).map
            (fun v => Coord.mk (v.x.getD 0) (v.y.getD 0)))) ∧
    GoogleVisionAPIFaceDetectionResultFactory.get_coords
      (GData.mk (some [GResponse.mk (some [GAnn.mk
        (GPoly.mk [GVertex.mk (some 1) (some 2)])
        (GPoly.mk [GVertex.mk (some 3) (some 4)])])])) =
      [Coord.mk 1 2, Coord.mk 3 4] := by
  constructor
  · simp only [GoogleVisionAPIFaceDetectionResultFactory.get_coords, List.flatMap_cons,
      List.flatMap_nil, List.append_nil, List.map_append]
  · rfl

/-- C7: the whole-image result contains exactly the four corner points (0,0),
(0,height), (width,0), (width,height); in particular a 40x50 image yields
[(0,0),(0,50),(40,0),(40,50)]. -/
theorem c7_whole_image_corners (uri : String) (w h : Int) :
    (AllDetectionResultFactory.call uri (w, h)).coords =
      [Coord.mk 0 0, Coord.mk 0 h, Coord.mk w 0, Coord.mk w h] ∧
    (AllDetectionResultFactory.call "image.jpg" (40, 50)).coords =
      [Coord.mk 0 0, Coord.mk 0 50, Coord.mk 40 0, Coord.mk 40 50] :=
  ⟨rfl, rfl⟩

/-- C8: the detection request raises `MSProjectoxfordDetectionError` exactly
when the status code is not 200, and the raised error carries the literal
status code, the reason phrase and the raw response body in its message. -/
theorem c8_non_200_detection_error (res : MSHttpResponse) :
    isMSDetectionError (MSProjectoxfordDetection.request res) = (res.status_code != 200) ∧
    (res.status_code ≠ 200 → MSProjectoxfordDetection.request res =
      Except.error (PyExc.msProjectoxfordDetectionError
        ("detection failed: status=" ++ toString res.status_code ++
         ", reason=" ++ res.reason ++ ", content=" ++ res.content))) := by
  constructor
  · unfold MSProjectoxfordDetection.request isMSDetectionError
    by_cases h : res.status_code = 200
    · have hb : (res.status_code != 200) = false := by simp [h]
      rw [if_neg (by simp [hb]), hb]
      cases hj : res.jsonBody with
      | ok d => rfl
      | error m => rfl
    · have hb : (res.status_code != 200) = true := by simpa using h
      rw [if_pos hb, hb]
  · intro h
    have hb : (res.status_code != 200) = true := by simpa using h
    unfold MSProjectoxfordDetection.request
    rw [if_pos hb]

/-- C8 witness: a 404 response with reason `Not Found` and body `no face`
raises the detection error carrying all three. -/
theorem c8_non_200_witness :
    MSProjectoxfordDetection.request
        (MSHttpResponse.mk 404 "Not Found" "no face" (Except.error "boom")) =
      Except.error (PyExc.msProjectoxfordDetectionError
        "detection failed: status=404, reason=Not Found, content=no face") :=
  (c8_non_200_detection_error
    (MSHttpResponse.mk 404 "Not Found" "no face" (Except.error "boom"))).2 (by decide)

/-- C9: locator classification is purely syntactic — local means the parsed
scheme is empty and gcs means the parsed scheme is exactly `gs`; `foo.jpg` is
local, `gs://bucket/x` is a gs reference, and `https://x/y` is neither. -/
theorem c9_locator_classification (uri : String) :
    is_localfile uri = (urlparse_scheme uri == "") ∧
    is_gcs_image_uri uri = (urlparse_scheme uri == "gs") ∧
    is_localfile "foo.jpg" = true ∧
    is_gcs_image_uri "foo.jpg" = false ∧
    is_localfile "gs://bucket/x" = false ∧
    is_gcs_image_uri "gs://bucket/x" = true ∧
    is_localfile "https://x/y" = false ∧
    is_gcs_image_uri "https://x/y" = false := by
  refine ⟨rfl, rfl, ?_, ?_, ?_, ?_, ?_, ?_⟩ <;> decide

/-- C10: the CLI entry point ignores the value of the `--crop` option: with
the registry, mode and target fixed, `main` produces the same URL for any two
values of the option, because it always instantiates `AkamaiCrop` directly. -/
theorem c10_crop_option_ignored
    (registry : String → Option (String → Except PyExc IDetectionResult))
    (mode target opt1 opt2 : String) :
    main_url registry mode target opt1 = main_url registry mode target opt2 := rfl
